import Mathlib

/-
  Verification development for the mcphub configuration-resolution and
  server-lifecycle subsystem.

  The CLI utility layer (src/mcphub/cli/utils.py) is embedded directly from
  its source.  The Server Parameter Resolver (MCPServersParams) and the
  Server Lifecycle Manager (MCPServers) live in src/mcphub/mcp_servers/,
  whose source is not part of this tree (only its tests are); those
  definitions are modelled from the specification, as noted in their doc
  comments.  File I/O, subprocess execution and interactive prompts are
  modelled by passing their observable outcomes in as explicit values.
-/

namespace MCPHub

/-- Association-list lookup, modelling Python dict lookup `d.get(k)` /
`k in d` on JSON objects (keys unique, insertion order preserved). -/
def lookupKey {α : Type} : List (String × α) → String → Option α
  | [], _ => none
  | (k0, v) :: t, k => if k0 = k then some v else lookupKey t k

/-- Association-list insertion, modelling Python dict assignment
`d[k] = v`: replaces the value of an existing key in place, otherwise
appends the new binding at the end. -/
def insertKey {α : Type} : List (String × α) → String → α → List (String × α)
  | [], k, v => [(k, v)]
  | (k0, v0) :: t, k, v =>
      if k0 = k then (k, v) :: t else (k0, v0) :: insertKey t k v

/-- A JSON value appearing in an `env` mapping: the code checks
`isinstance(value, str)`, so we distinguish strings from everything else. -/
inductive EnvVal where
  | str (s : String)
  | nonStr (x : Nat)
deriving Repr, DecidableEq

/-- A per-server configuration dict as handled by `cli/utils.py`:
the `env` member when present (and a dict), and the remaining members,
which the env-processing code never touches. -/
structure ServerConfigDict where
  env : Option (List (String × EnvVal))
  rest : List (String × String)
deriving Repr, DecidableEq

/-- The literal two-character string the code tests with
`value.startswith("${")`. -/
def tpl_open : String := "$\x7b"

/-- The literal one-character string the code tests with
`value.endswith("}")`. -/
def tpl_close : String := "\x7d"

/-- Python `value.startswith(p)`. -/
def str_startswith (v p : String) : Bool := p.data.isPrefixOf v.data

/-- Python `value.endswith(p)`. -/
def str_endswith (v p : String) : Bool := p.data.isSuffixOf v.data

/-- The template test from `detect_env_vars` / `process_env_vars`:
`value.startswith("${") and value.endswith("}")`. -/
def isEnvTemplate (v : String) : Bool :=
  str_startswith v tpl_open && str_endswith v tpl_close

/-- Python `value[2:-1]`: drop the first two characters and the last one. -/
def extractEnvVar (v : String) : String := String.mk ((v.data.drop 2).dropLast)

/-- Embeds `detect_env_vars` from `cli/utils.py`: collect, in order, the
names of all `${NAME}` template values in the config's env section. -/
def detect_env_vars (server_config : ServerConfigDict) : List String :=
  match server_config.env with
  | none => []
  | some env =>
      env.filterMap fun kv =>
        match kv.2 with
        | EnvVal.str v => if isEnvTemplate v then some (extractEnvVar v) else none
        | EnvVal.nonStr _ => none

/-- The per-entry body of the loop in `process_env_vars`: a `${NAME}`
string value is replaced by `env_values[NAME]` when provided and kept
verbatim otherwise; every other value is kept as is. -/
def process_env_entry (env_values : List (String × String)) (kv : String × EnvVal) :
    String × EnvVal :=
  match kv.2 with
  | EnvVal.str v =>
      if isEnvTemplate v then
        match lookupKey env_values (extractEnvVar v) with
        | some x => (kv.1, EnvVal.str x)
        | none => (kv.1, EnvVal.str v)
      else (kv.1, EnvVal.str v)
  | EnvVal.nonStr x => (kv.1, EnvVal.nonStr x)

/-- Embeds `process_env_vars` from `cli/utils.py`: rebuild the env section
entry by entry; a config without a usable env section is returned
unchanged. -/
def process_env_vars (server_config : ServerConfigDict)
    (env_values : List (String × String)) : ServerConfigDict :=
  match server_config.env with
  | none => server_config
  | some env => ServerConfigDict.mk (some (env.map (process_env_entry env_values))) server_config.rest

/-- A CLI-level config file content: the single top-level `mcpServers`
mapping. -/
structure CliConfig where
  mcpServers : List (String × ServerConfigDict)
deriving Repr, DecidableEq

/-- Embeds `add_server_config` from `cli/utils.py`.  File reads
(`load_preconfigured_servers`, `load_config`), the process environment and
the interactive prompt results are passed in as values; the returned
`Option CliConfig` is the config written by `save_config` (`none` when no
write happens). -/
def add_server_config (preconfigured local_config : CliConfig)
    (environ prompted : List (String × String))
    (name : String) (interactive save_to_config : Bool) :
    (Bool × Option (List String)) × Option CliConfig :=
  match lookupKey preconfigured.mcpServers name with
  | none => ((false, none), none)
  | some server_config0 =>
      let env_vars := detect_env_vars server_config0
      let processed :=
        if !env_vars.isEmpty && interactive then
          (process_env_vars server_config0 prompted,
           env_vars.filter fun v =>
             (lookupKey prompted v).isNone && (lookupKey environ v).isNone)
        else (server_config0, [])
      let written :=
        if save_to_config then
          some (CliConfig.mk (insertKey local_config.mcpServers name processed.1))
        else none
      ((true, if processed.2.isEmpty then none else some processed.2), written)

/-- Modelled from the spec: the per-server entry shape of the user config
file and of the preconfigured catalog (`mcp_servers/params.py` is not in
this tree).  Every field is optional in the JSON object. -/
structure UserServerEntry where
  package_name : Option String
  command : Option String
  args : Option (List String)
  env : Option (List (String × String))
  description : Option String
  tags : Option (List String)
  cwd : Option String
  repo_url : Option String
  setup_script : Option String
deriving Repr, DecidableEq

/-- Modelled from the spec: the uniform typed record `MCPServerConfig`
produced by the Server Parameter Resolver (`mcp_servers/params.py` is not
in this tree). -/
structure MCPServerConfig where
  package_name : String
  command : String
  args : List String
  env : List (String × String)
  description : Option String
  tags : List String
  cwd : Option String
  repo_url : Option String
  setup_script : Option String
deriving Repr, DecidableEq

/-- Field-by-field override: the user-config value when explicitly
present, the catalog value otherwise. -/
def ovr {α : Type} (userField catField : Option α) : Option α :=
  match userField with
  | some x => some x
  | none => catField

/-- Modelled from the spec: merging a catalog entry into a user entry,
with every field explicitly present in the user entry overriding the
catalog's value for that field. -/
def mergeEntry (cat user : UserServerEntry) : UserServerEntry :=
  ⟨ovr user.package_name cat.package_name, ovr user.command cat.command,
   ovr user.args cat.args, ovr user.env cat.env,
   ovr user.description cat.description, ovr user.tags cat.tags,
   ovr user.cwd cat.cwd, ovr user.repo_url cat.repo_url,
   ovr user.setup_script cat.setup_script⟩

/-- Modelled from the spec: completing a fully-merged entry into the typed
record; `cwd` stays `none` until a repository has been cloned. -/
def entryToConfig (e : UserServerEntry) : MCPServerConfig :=
  ⟨e.package_name.getD "", e.command.getD "", e.args.getD [], e.env.getD [],
   e.description, e.tags.getD [], e.cwd, e.repo_url, e.setup_script⟩

/-- The error raised when a server name is not resolvable
(`mcp_servers/exceptions.py` is not in this tree; shape from the spec's
error taxonomy). -/
structure ServerConfigNotFoundError where
  name : String
deriving Repr, DecidableEq

/-- An entry that needs no catalog lookup because it carries its own
command. -/
def isSelfContained (e : UserServerEntry) : Bool := e.command.isSome

/-- Modelled from the spec: resolution of a single user-config entry
(`mcp_servers/params.py` is not in this tree).  If the entry's
package_name matches a catalog entry, the resolved record inherits the
catalog's fields with user fields overriding; a self-contained entry is
used as-is; otherwise resolution of this entry fails with
`ServerConfigNotFoundError`. -/
def resolveEntry (catalog : List (String × UserServerEntry)) (e : UserServerEntry) :
    Except ServerConfigNotFoundError MCPServerConfig :=
  match e.package_name with
  | some p =>
      match lookupKey catalog p with
      | some c => Except.ok (entryToConfig (mergeEntry c e))
      | none =>
          if isSelfContained e then Except.ok (entryToConfig e)
          else Except.error ⟨p⟩
  | none =>
      if isSelfContained e then Except.ok (entryToConfig e)
      else Except.error ⟨""⟩

/-- Modelled from the spec: the Server Parameter Resolver's state, the
resolved record mapping keyed by the user-facing server name. -/
structure MCPServersParams where
  servers : List (String × MCPServerConfig)
deriving Repr, DecidableEq

/-- Modelled from the spec: `retrieve_server_params(name)` returns the
resolved record for `name`, or `none` if absent — lookup by the
user-facing key, never throwing. -/
def retrieve_server_params (st : MCPServersParams) (name : String) :
    Option MCPServerConfig :=
  lookupKey st.servers name

/-- The process-launch descriptor built from a resolved record
(`StdioServerParameters` of the MCP client library). -/
structure StdioServerParameters where
  command : String
  args : List String
  env : List (String × String)
  cwd : Option String
deriving Repr, DecidableEq

/-- Modelled from the spec: `convert_to_stdio_params(name)` builds a
process-launch descriptor from the resolved record, failing with
`ServerConfigNotFoundError` for an unknown name. -/
def convert_to_stdio_params (st : MCPServersParams) (name : String) :
    Except ServerConfigNotFoundError StdioServerParameters :=
  match retrieve_server_params st name with
  | none => Except.error ⟨name⟩
  | some c => Except.ok ⟨c.command, c.args, c.env, c.cwd⟩

/-- Replace a record's `cwd`, leaving every other field unchanged. -/
def setCwd (c : MCPServerConfig) (p : Option String) : MCPServerConfig :=
  ⟨c.package_name, c.command, c.args, c.env, c.description, c.tags, p,
   c.repo_url, c.setup_script⟩

/-- Modelled from the spec: `update_server_path(name, path)` mutates the
resolved record's cwd in place, failing with `ServerConfigNotFoundError`
for an unknown name. -/
def update_server_path (st : MCPServersParams) (name path : String) :
    Except ServerConfigNotFoundError MCPServersParams :=
  match retrieve_server_params st name with
  | none => Except.error ⟨name⟩
  | some c => Except.ok ⟨insertKey st.servers name (setCwd c (some path))⟩

/-- The two construction failures of the Resolver, distinct from each
other: Python `FileNotFoundError` and the `ValueError` raised by JSON
decoding. -/
inductive ConfigInitError where
  | fileNotFoundError
  | valueError (msg : String)
deriving Repr, DecidableEq

/-- Modelled from the spec: resolving every entry of the user config's
server mapping; a failure of one entry does not abort resolution of the
others. -/
def resolveAll (catalog : List (String × UserServerEntry))
    (entries : List (String × UserServerEntry)) :
    List (String × MCPServerConfig) :=
  entries.filterMap fun kv =>
    match resolveEntry catalog kv.2 with
    | Except.ok r => some (kv.1, r)
    | Except.error _ => none

/-- Modelled from the spec: construction of `MCPServersParams` from a
path (`mcp_servers/params.py` is not in this tree).  The filesystem is a
map from paths to file contents and JSON decoding is a map from contents
to decoded server mappings, both passed in as values.  A missing path
raises `FileNotFoundError`; content that does not decode raises a
`ValueError`. -/
def loadServersParams (fileContents : String → Option String)
    (decodeJson : String → Option (List (String × UserServerEntry)))
    (catalog : List (String × UserServerEntry)) (path : String) :
    Except ConfigInitError MCPServersParams :=
  match fileContents path with
  | none => Except.error ConfigInitError.fileNotFoundError
  | some content =>
      match decodeJson content with
      | none => Except.error (ConfigInitError.valueError "Invalid JSON in config file")
      | some entries => Except.ok ⟨resolveAll catalog entries⟩

/-- The error wrapping clone and setup-script failures
(`mcp_servers/exceptions.py` is not in this tree; shape from the spec's
error taxonomy). -/
structure SetupError where
  message : String
deriving Repr, DecidableEq

/-- Outcome of the external `git clone` subprocess. -/
inductive CloneOutcome where
  | success
  | failure (stderrText : String)
deriving Repr, DecidableEq

/-- Splitting a character list at every occurrence of `c`, modelling
Python `s.split(c)`. -/
def splitChar (c : Char) : List Char → List (List Char)
  | [] => [[]]
  | a :: t =>
      match splitChar c t with
      | [] => if a = c then [[], []] else [[a]]
      | h :: r => if a = c then [] :: h :: r else (a :: h) :: r

/-- Modelled from the spec: the cache subdirectory name for a repository,
the last path segment of `repo_name` (Python `repo_name.split("/")[-1]`). -/
def repoDirName (repo_name : String) : String :=
  String.mk ((splitChar '/' repo_name.data).getLastD [])

/-- The target directory of a clone: the cache directory joined with the
repository's directory name. -/
def cloneTarget (cache_dir repo_name : String) : String :=
  cache_dir ++ "/" ++ repoDirName repo_name

/-- Modelled from the spec: `_clone_repository(repo_url, repo_name)` of
the Server Lifecycle Manager (`mcp_servers/servers.py` is not in this
tree).  The existing directories of the cache and the outcome of the
external clone are passed in as values; the result carries the returned
path, the directories afterwards, and whether a clone was invoked.  An
already-existing target directory is returned as-is without cloning; a
failing clone is wrapped into a `SetupError` carrying the repository URL
and the underlying failure text. -/
def _clone_repository (cache_dir : String) (dirs : List String)
    (git : CloneOutcome) (repo_url repo_name : String) :
    Except SetupError (String × List String × Bool) :=
  let target := cloneTarget cache_dir repo_name
  if target ∈ dirs then
    Except.ok (target, dirs, false)
  else
    match git with
    | CloneOutcome.success => Except.ok (target, target :: dirs, true)
    | CloneOutcome.failure err =>
        Except.error ⟨"Failed to clone repository " ++ repo_url ++ ": " ++ err⟩

/-- Outcome of executing the setup script subprocess. -/
inductive ExecOutcome where
  | exitZero
  | exitNonZero (code : Nat) (stderrText : String)
  | raised (msg : String)
deriving Repr, DecidableEq

/-- The filesystem effects of a setup-script run: the script file written,
its content, its executable bit, and the working directory of the
execution. -/
structure ScriptExecution where
  script_file : String
  content : String
  executable : Bool
  run_dir : String
deriving Repr, DecidableEq

/-- Modelled from the spec: `_run_setup_script(path, script)` of the
Server Lifecycle Manager (`mcp_servers/servers.py` is not in this tree).
Writes `setup_temp.sh` inside `path` containing the `#!/bin/bash` header
followed by the script text and a trailing newline, marks it executable,
and runs it synchronously with working directory `path`; a non-zero exit
or an execution exception is wrapped into `SetupError`. -/
def _run_setup_script (path script : String) (ex : ExecOutcome) :
    ScriptExecution × Except SetupError Unit :=
  let eff : ScriptExecution :=
    ⟨path ++ "/setup_temp.sh", "#!/bin/bash\n" ++ script ++ "\n", true, path⟩
  match ex with
  | ExecOutcome.exitZero => (eff, Except.ok ())
  | ExecOutcome.exitNonZero _ err =>
      (eff, Except.error ⟨"Failed to run setup script: " ++ err⟩)
  | ExecOutcome.raised m =>
      (eff, Except.error ⟨"Failed to run setup script: " ++ m⟩)

/-- The externally visible operations `setup_server` performs, in order. -/
inductive SetupOp where
  | cloneRepo (url name : String)
  | updateServerPath (path : String)
  | runScript (dir : Option String) (script : String)
deriving Repr, DecidableEq

/-- Modelled from the spec: `setup_server(record)` of the Server
Lifecycle Manager (`mcp_servers/servers.py` is not in this tree).  When
`repo_url` is set the repository is cloned or its cached clone reused and
the record's cwd is updated to the clone's local path via the Resolver's
path-update operation; when `setup_script` is set it is executed with
working directory equal to the resolved cwd; with neither field set
nothing happens.  Returns the updated record (or the `SetupError`) and
the list of performed operations. -/
def setup_server (dirs : List String) (cache_dir : String)
    (git : CloneOutcome) (ex : ExecOutcome) (cfg : MCPServerConfig) :
    Except SetupError MCPServerConfig × List SetupOp :=
  match cfg.repo_url with
  | none =>
      match cfg.setup_script with
      | none => (Except.ok cfg, [])
      | some s =>
          let ops := [SetupOp.runScript cfg.cwd s]
          match (_run_setup_script (cfg.cwd.getD "") s ex).2 with
          | Except.ok _ => (Except.ok cfg, ops)
          | Except.error e => (Except.error e, ops)
  | some url =>
      match _clone_repository cache_dir dirs git url cfg.package_name with
      | Except.error e => (Except.error e, [SetupOp.cloneRepo url cfg.package_name])
      | Except.ok (p, _, _) =>
          let cfg2 := setCwd cfg (some p)
          let ops := [SetupOp.cloneRepo url cfg.package_name,
                      SetupOp.updateServerPath p]
          match cfg2.setup_script with
          | none => (Except.ok cfg2, ops)
          | some s =>
              let ops2 := ops ++ [SetupOp.runScript cfg2.cwd s]
              match (_run_setup_script p s ex).2 with
              | Except.ok _ => (Except.ok cfg2, ops2)
              | Except.error e => (Except.error e, ops2)

/-- A concrete resolved record mirroring the test fixture
(`test-mcp-server` of `tests/conftest`-style config). -/
def demoConfig : MCPServerConfig :=
  ⟨"test-mcp-server", "python", ["-m", "test_server"],
   [("TEST_ENV", "test_value")], some "Test MCP Server", ["test", "demo"],
   none, none, none⟩

/-- A concrete catalog entry mirroring the `predefined-server` fixture of
the resolver tests. -/
def demoCatalogEntry : UserServerEntry :=
  ⟨none, some "python", some ["-m", "predefined_server"], none,
   some "Predefined MCP Server", some ["predefined", "demo"], none, none, none⟩

/-- A user-config entry that supplies only a `package_name` referencing
the catalog. -/
def demoReferenceEntry : UserServerEntry :=
  ⟨some "predefined-server", none, none, none, none, none, none, none, none⟩

/-- A concrete record with both a repository URL and a setup script,
mirroring the lifecycle tests. -/
def demoSetupConfig : MCPServerConfig :=
  ⟨"test-mcp-server", "python", ["-m", "test_server"],
   [("TEST_ENV", "test_value")], some "Test MCP Server", ["test", "demo"],
   none, some "https://github.com/test/repo.git", some "npm install"⟩

/-- A string passes the template test exactly when it is of the form
`${NAME}` for some (possibly empty) name. -/
theorem isEnvTemplate_iff (v : String) :
    isEnvTemplate v = true ↔ ∃ n : String, v = tpl_open ++ n ++ tpl_close := by
  constructor
  · intro h
    rw [isEnvTemplate, Bool.and_eq_true] at h
    obtain ⟨h1, h2⟩ := h
    rw [str_startswith, List.isPrefixOf_iff_prefix] at h1
    rw [str_endswith, List.isSuffixOf_iff_suffix] at h2
    obtain ⟨t, ht⟩ := h1
    obtain ⟨s, hs⟩ := h2
    have hop : tpl_open.data = ['$', '\x7b'] := rfl
    rw [hop] at ht
    have hcl : tpl_close.data = ['\x7d'] := rfl
    rw [hcl] at hs
    rw [← ht] at hs
    match s, hs with
    | [], hs => simp at hs
    | [a], hs => simp at hs
    | a :: b :: s2, hs =>
      simp only [List.cons_append, List.cons.injEq] at hs
      obtain ⟨rfl, rfl, hs3⟩ := hs
      refine ⟨String.mk s2, ?_⟩
      apply String.ext
      rw [String.data_append, String.data_append, hop, hcl]
      show v.data = ['$', '\x7b'] ++ s2 ++ ['\x7d']
      rw [List.append_assoc, hs3, ← ht]
      rfl
  · rintro ⟨n, rfl⟩
    rw [isEnvTemplate, Bool.and_eq_true, str_startswith, str_endswith,
      List.isPrefixOf_iff_prefix, List.isSuffixOf_iff_suffix]
    exact ⟨⟨n.data ++ tpl_close.data, by simp [String.data_append]⟩,
           ⟨tpl_open.data ++ n.data, by simp [String.data_append]⟩⟩

/-- Extracting the name from a well-formed template recovers it. -/
theorem extractEnvVar_tpl (n : String) :
    extractEnvVar (tpl_open ++ n ++ tpl_close) = n := by
  apply String.ext
  rw [extractEnvVar]
  show (((tpl_open ++ n ++ tpl_close).data.drop 2).dropLast) = n.data
  rw [String.data_append, String.data_append]
  rw [show tpl_open.data = ['$', '\x7b'] from rfl,
      show tpl_close.data = ['\x7d'] from rfl]
  rw [List.append_assoc]
  show (n.data ++ ['\x7d']).dropLast = n.data
  exact List.dropLast_concat

/-- Lookup of a key absent from an association list yields nothing. -/
theorem lookupKey_eq_none_of_not_mem {α : Type} (l : List (String × α)) (k : String)
    (h : k ∉ l.map Prod.fst) : lookupKey l k = none := by
  induction l with
  | nil => rfl
  | cons kv t ih =>
      obtain ⟨k0, v⟩ := kv
      simp only [List.map_cons, List.mem_cons, not_or] at h
      obtain ⟨h1, h2⟩ := h
      rw [lookupKey, if_neg (fun he => h1 he.symm)]
      exact ih h2

/-- Lookup of a present key in an association list with unique keys yields
exactly that key's value. -/
theorem lookupKey_eq_some_of_mem {α : Type} (l : List (String × α)) (k : String)
    (v : α) (hnd : (l.map Prod.fst).Nodup) (h : (k, v) ∈ l) :
    lookupKey l k = some v := by
  induction l with
  | nil => cases h
  | cons kv t ih =>
      obtain ⟨k0, v0⟩ := kv
      rw [List.map_cons, List.nodup_cons] at hnd
      obtain ⟨hk0, hnd2⟩ := hnd
      rcases List.mem_cons.mp h with heq | hmem
      · rw [Prod.mk.injEq] at heq
        obtain ⟨rfl, rfl⟩ := heq
        rw [lookupKey, if_pos rfl]
      · have hk : k0 ≠ k := by
          intro he
          apply hk0
          rw [he]
          exact List.mem_map.mpr ⟨(k, v), hmem, rfl⟩
        rw [lookupKey, if_neg hk]
        exact ih hnd2 hmem

/-- C1: a user-config entry whose package_name matches a catalog entry
resolves to a record inheriting command, args, env, description, tags,
repo_url and setup_script from the catalog entry, with any field
explicitly present in the user entry overriding the catalog's value for
that field. -/
theorem resolveEntry_catalog_inheritance
    (catalog : List (String × UserServerEntry)) (u : UserServerEntry)
    (p : String) (c : UserServerEntry)
    (hp : u.package_name = some p) (hc : lookupKey catalog p = some c) :
    ∃ r, resolveEntry catalog u = Except.ok r ∧
      r.package_name = p ∧
      (u.command = none → r.command = c.command.getD "") ∧
      (∀ x, u.command = some x → r.command = x) ∧
      (u.args = none → r.args = c.args.getD []) ∧
      (∀ x, u.args = some x → r.args = x) ∧
      (u.env = none → r.env = c.env.getD []) ∧
      (∀ x, u.env = some x → r.env = x) ∧
      (u.description = none → r.description = c.description) ∧
      (∀ x, u.description = some x → r.description = some x) ∧
      (u.tags = none → r.tags = c.tags.getD []) ∧
      (∀ x, u.tags = some x → r.tags = x) ∧
      (u.repo_url = none → r.repo_url = c.repo_url) ∧
      (∀ x, u.repo_url = some x → r.repo_url = some x) ∧
      (u.setup_script = none → r.setup_script = c.setup_script) ∧
      (∀ x, u.setup_script = some x → r.setup_script = some x) := by
  refine ⟨entryToConfig (mergeEntry c u), ?_, ?_⟩
  · simp [resolveEntry, hp, hc]
  · and_intros
    all_goals intros
    all_goals simp [entryToConfig, mergeEntry, ovr, *]

/-- C1 witness: the spec's end-to-end scenario, a user entry referencing
`predefined-server` by package_name only. -/
theorem resolveEntry_catalog_inheritance_witness :
    ∃ r, resolveEntry [("predefined-server", demoCatalogEntry)] demoReferenceEntry =
        Except.ok r ∧
      r.package_name = "predefined-server" ∧
      r.command = "python" ∧ r.args = ["-m", "predefined_server"] := by
  obtain ⟨r, hr, hpn, hcn, _, han, hrest⟩ :=
    resolveEntry_catalog_inheritance [("predefined-server", demoCatalogEntry)]
      demoReferenceEntry "predefined-server" demoCatalogEntry rfl rfl
  refine ⟨r, hr, hpn, ?_, ?_⟩
  · rw [hcn rfl]
    rfl
  · rw [han rfl]
    rfl

/-- C2: constructing the Resolver from a missing path fails with
`FileNotFoundError`; constructing it from an existing file whose content
does not decode as JSON fails with a `ValueError`, an error distinct from
the file-not-found one. -/
theorem loadServersParams_error_semantics
    (fileContents : String → Option String)
    (decodeJson : String → Option (List (String × UserServerEntry)))
    (catalog : List (String × UserServerEntry)) (path : String) :
    (fileContents path = none →
        loadServersParams fileContents decodeJson catalog path =
          Except.error ConfigInitError.fileNotFoundError) ∧
    (∀ content, fileContents path = some content → decodeJson content = none →
        loadServersParams fileContents decodeJson catalog path =
          Except.error (ConfigInitError.valueError "Invalid JSON in config file")) ∧
    (∀ msg, ConfigInitError.fileNotFoundError ≠ ConfigInitError.valueError msg) := by
  refine ⟨?_, ?_, fun msg => by simp⟩
  · intro h
    simp [loadServersParams, h]
  · intro content h1 h2
    simp [loadServersParams, h1, h2]

/-- C2 witness: a missing path, and a file holding `{ invalid json`
together with a decoder that rejects it. -/
theorem loadServersParams_error_semantics_witness :
    loadServersParams (fun _ => none) (fun _ => none) []
        "/nonexistent/path/.mcphub.json" =
      Except.error ConfigInitError.fileNotFoundError ∧
    loadServersParams (fun _ => some "\x7b invalid json") (fun _ => none) []
        "/tmp/.mcphub.json" =
      Except.error (ConfigInitError.valueError "Invalid JSON in config file") ∧
    ConfigInitError.fileNotFoundError ≠
      ConfigInitError.valueError "Invalid JSON in config file" := by
  have h1 := loadServersParams_error_semantics (fun _ => none) (fun _ => none)
    [] "/nonexistent/path/.mcphub.json"
  have h2 := loadServersParams_error_semantics
    (fun _ => some "\x7b invalid json") (fun _ => none) [] "/tmp/.mcphub.json"
  exact ⟨h1.1 rfl, h2.2.1 "\x7b invalid json" rfl rfl, h1.2.2 _⟩

/-- C3: `retrieve_server_params` returns `none` for every name not
present in the resolved record mapping (and, being a total function,
raises nothing), and returns the name's resolved record for every present
name — lookup is by the user-facing key of the mapping. -/
theorem retrieve_server_params_total_lookup
    (st : MCPServersParams) (name : String) :
    (name ∉ st.servers.map Prod.fst → retrieve_server_params st name = none) ∧
    (∀ c, (st.servers.map Prod.fst).Nodup → (name, c) ∈ st.servers →
        retrieve_server_params st name = some c) := by
  constructor
  · intro h
    exact lookupKey_eq_none_of_not_mem _ _ h
  · intro c hnd hm
    exact lookupKey_eq_some_of_mem _ _ _ hnd hm

/-- C3 witness: lookup of an unknown and of a known name in a one-record
mapping. -/
theorem retrieve_server_params_total_lookup_witness :
    retrieve_server_params (MCPServersParams.mk [("test-server", demoConfig)])
        "non-existent" = none ∧
    retrieve_server_params (MCPServersParams.mk [("test-server", demoConfig)])
        "test-server" = some demoConfig := by
  constructor
  · exact (retrieve_server_params_total_lookup
      (MCPServersParams.mk [("test-server", demoConfig)]) "non-existent").1
      (by decide)
  · exact (retrieve_server_params_total_lookup
      (MCPServersParams.mk [("test-server", demoConfig)]) "test-server").2
      demoConfig (by decide) (by simp)

/-- C4: on a name absent from the resolved record mapping both
`convert_to_stdio_params` and `update_server_path` fail with
`ServerConfigNotFoundError`; on a known name `convert_to_stdio_params`
returns a process-launch descriptor whose command, args, env and cwd
equal the resolved record's fields. -/
theorem convert_and_update_error_handling
    (st : MCPServersParams) (name path : String) :
    (name ∉ st.servers.map Prod.fst →
        convert_to_stdio_params st name = Except.error ⟨name⟩ ∧
        update_server_path st name path = Except.error ⟨name⟩) ∧
    (∀ c, retrieve_server_params st name = some c →
        ∃ sp, convert_to_stdio_params st name = Except.ok sp ∧
          sp.command = c.command ∧ sp.args = c.args ∧
          sp.env = c.env ∧ sp.cwd = c.cwd) := by
  constructor
  · intro h
    have hn : retrieve_server_params st name = none :=
      lookupKey_eq_none_of_not_mem _ _ h
    constructor
    · simp [convert_to_stdio_params, hn]
    · simp [update_server_path, hn]
  · intro c h
    refine ⟨⟨c.command, c.args, c.env, c.cwd⟩, ?_, rfl, rfl, rfl, rfl⟩
    simp [convert_to_stdio_params, h]

/-- C4 witness: the two operations on an unknown name, and the descriptor
built for a known one. -/
theorem convert_and_update_error_handling_witness :
    (convert_to_stdio_params (MCPServersParams.mk [("test-server", demoConfig)])
        "non-existent" = Except.error ⟨"non-existent"⟩ ∧
      update_server_path (MCPServersParams.mk [("test-server", demoConfig)])
        "non-existent" "/new/path" = Except.error ⟨"non-existent"⟩) ∧
    ∃ sp, convert_to_stdio_params (MCPServersParams.mk [("test-server", demoConfig)])
        "test-server" = Except.ok sp ∧
      sp.command = demoConfig.command ∧ sp.args = demoConfig.args ∧
      sp.env = demoConfig.env ∧ sp.cwd = demoConfig.cwd := by
  have h := convert_and_update_error_handling
    (MCPServersParams.mk [("test-server", demoConfig)]) "non-existent" "/new/path"
  have h2 := convert_and_update_error_handling
    (MCPServersParams.mk [("test-server", demoConfig)]) "test-server" "/new/path"
  exact ⟨h.1 (by decide), h2.2 demoConfig rfl⟩

/-- An already-cached repository directory makes `_clone_repository` a
no-op returning the cached path. -/
theorem clone_mem_noop (cache_dir : String) (dirs : List String)
    (git : CloneOutcome) (repo_url repo_name : String)
    (h : cloneTarget cache_dir repo_name ∈ dirs) :
    _clone_repository cache_dir dirs git repo_url repo_name =
      Except.ok (cloneTarget cache_dir repo_name, dirs, false) := by
  simp [_clone_repository, h]

/-- Any successful `_clone_repository` call returns the cache target path,
and that path is a directory of the resulting cache state. -/
theorem clone_ok_inv (cache_dir : String) (dirs : List String)
    (git : CloneOutcome) (repo_url repo_name p : String)
    (dirs2 : List String) (b : Bool)
    (h : _clone_repository cache_dir dirs git repo_url repo_name =
        Except.ok (p, dirs2, b)) :
    p = cloneTarget cache_dir repo_name ∧ p ∈ dirs2 := by
  by_cases hmem : cloneTarget cache_dir repo_name ∈ dirs
  · simp only [_clone_repository, if_pos hmem, Except.ok.injEq, Prod.mk.injEq] at h
    obtain ⟨h1, h2, _⟩ := h
    subst h1
    subst h2
    exact ⟨rfl, hmem⟩
  · cases git with
    | success =>
        simp only [_clone_repository, if_neg hmem, Except.ok.injEq, Prod.mk.injEq] at h
        obtain ⟨h1, h2, _⟩ := h
        subst h1
        subst h2
        exact ⟨rfl, List.mem_cons_self _ _⟩
    | failure err =>
        simp [_clone_repository, if_neg hmem] at h

/-- C5: `_clone_repository` is idempotent on an existing cache entry: an
already-existing target directory is returned as-is with no clone
invoked, and after any successful call a second call with the same
repo_name returns the same path with no clone invoked. -/
theorem clone_repository_idempotent
    (cache_dir : String) (dirs : List String) (git git2 : CloneOutcome)
    (repo_url url2 repo_name : String) :
    (cloneTarget cache_dir repo_name ∈ dirs →
        _clone_repository cache_dir dirs git repo_url repo_name =
          Except.ok (cloneTarget cache_dir repo_name, dirs, false)) ∧
    (∀ p dirs2 b, _clone_repository cache_dir dirs git repo_url repo_name =
          Except.ok (p, dirs2, b) →
        _clone_repository cache_dir dirs2 git2 url2 repo_name =
          Except.ok (p, dirs2, false)) := by
  constructor
  · intro h
    exact clone_mem_noop cache_dir dirs git repo_url repo_name h
  · intro p dirs2 b h
    obtain ⟨hp, hmem⟩ := clone_ok_inv cache_dir dirs git repo_url repo_name p dirs2 b h
    subst hp
    exact clone_mem_noop cache_dir dirs2 git2 url2 repo_name hmem

/-- C5 witness: a pre-populated cache hit, and a fresh clone followed by
a cached second call. -/
theorem clone_repository_idempotent_witness :
    _clone_repository "/cache" ["/cache/repo"] CloneOutcome.success
        "https://github.com/test/repo.git" "test/repo" =
      Except.ok ("/cache/repo", ["/cache/repo"], false) ∧
    _clone_repository "/cache" ["/cache/repo"] CloneOutcome.success
        "https://github.com/test/repo.git" "test/repo" =
      Except.ok ("/cache/repo", ["/cache/repo"], false) ∧
    _clone_repository "/cache" [] CloneOutcome.success
        "https://github.com/test/repo.git" "test/repo" =
      Except.ok ("/cache/repo", ["/cache/repo"], true) := by
  have h := clone_repository_idempotent "/cache" ["/cache/repo"]
    CloneOutcome.success CloneOutcome.success
    "https://github.com/test/repo.git" "https://github.com/test/repo.git" "test/repo"
  have h0 := clone_repository_idempotent "/cache" [] CloneOutcome.success
    CloneOutcome.success "https://github.com/test/repo.git"
    "https://github.com/test/repo.git" "test/repo"
  have hfirst : _clone_repository "/cache" [] CloneOutcome.success
      "https://github.com/test/repo.git" "test/repo" =
      Except.ok ("/cache/repo", ["/cache/repo"], true) := by rfl
  have hsnd := h0.2 "/cache/repo" ["/cache/repo"] true hfirst
  exact ⟨h.1 (by decide), hsnd, hfirst⟩

/-- C6: a failing clone is wrapped into a `SetupError` whose message
contains the repository URL and the underlying failure text. -/
theorem clone_repository_failure_wrapped
    (cache_dir : String) (dirs : List String) (repo_url repo_name err : String)
    (hmem : cloneTarget cache_dir repo_name ∉ dirs) :
    ∃ e, _clone_repository cache_dir dirs (CloneOutcome.failure err)
        repo_url repo_name = Except.error e ∧
      (∃ l1 l2, e.message.data = l1 ++ repo_url.data ++ l2) ∧
      (∃ l3 l4, e.message.data = l3 ++ err.data ++ l4) := by
  refine ⟨⟨"Failed to clone repository " ++ repo_url ++ ": " ++ err⟩, ?_, ?_, ?_⟩
  · simp [_clone_repository, hmem]
  · refine ⟨"Failed to clone repository ".data, ": ".data ++ err.data, ?_⟩
    simp [String.data_append]
  · refine ⟨("Failed to clone repository " ++ repo_url ++ ": ").data, [], ?_⟩
    simp [String.data_append]

/-- C6 witness: the failing clone of the tests, with git stderr text. -/
theorem clone_repository_failure_wrapped_witness :
    ∃ e, _clone_repository "/cache" [] (CloneOutcome.failure "Error: Repository not found")
        "https://github.com/invalid/repo.git" "invalid/repo" = Except.error e ∧
      (∃ l1 l2, e.message.data = l1 ++ "https://github.com/invalid/repo.git".data ++ l2) ∧
      (∃ l3 l4, e.message.data = l3 ++ "Error: Repository not found".data ++ l4) :=
  clone_repository_failure_wrapped "/cache" [] "https://github.com/invalid/repo.git"
    "invalid/repo" "Error: Repository not found" (by decide)

/-- C7: `_run_setup_script` writes `setup_temp.sh` inside the target path
with content `#!/bin/bash` newline, then the script text and a trailing
newline, marks it executable, runs it with working directory equal to the
target path, and yields a `SetupError` when the execution exits non-zero
or raises. -/
theorem run_setup_script_effects (path script : String) :
    (∀ ex, (_run_setup_script path script ex).1 =
        ScriptExecution.mk (path ++ "/setup_temp.sh")
          ("#!/bin/bash\n" ++ script ++ "\n") true path) ∧
    (_run_setup_script path script ExecOutcome.exitZero).2 = Except.ok () ∧
    (∀ code err, ∃ e, (_run_setup_script path script
        (ExecOutcome.exitNonZero code err)).2 = Except.error e) ∧
    (∀ m, ∃ e, (_run_setup_script path script (ExecOutcome.raised m)).2 =
        Except.error e) := by
  refine ⟨?_, rfl, fun code err => ⟨_, rfl⟩, fun m => ⟨_, rfl⟩⟩
  intro ex
  cases ex <;> rfl

/-- C8: `setup_server` clones (or reuses) and updates the record's cwd to
the clone path when `repo_url` is set, runs the setup script with working
directory equal to the resolved cwd when `setup_script` is set, and does
nothing at all when neither field is set. -/
theorem setup_server_lifecycle
    (dirs : List String) (cache_dir : String) (git : CloneOutcome)
    (ex : ExecOutcome) (cfg : MCPServerConfig) :
    (cfg.repo_url = none → cfg.setup_script = none →
        setup_server dirs cache_dir git ex cfg = (Except.ok cfg, [])) ∧
    (∀ url r ops, cfg.repo_url = some url →
        setup_server dirs cache_dir git ex cfg = (Except.ok r, ops) →
        r.cwd = some (cloneTarget cache_dir cfg.package_name) ∧
        SetupOp.cloneRepo url cfg.package_name ∈ ops ∧
        SetupOp.updateServerPath (cloneTarget cache_dir cfg.package_name) ∈ ops) ∧
    (∀ s r ops, cfg.setup_script = some s →
        setup_server dirs cache_dir git ex cfg = (Except.ok r, ops) →
        SetupOp.runScript r.cwd s ∈ ops) := by
  refine ⟨?_, ?_, ?_⟩
  · intro h1 h2
    simp [setup_server, h1, h2]
  · intro url r ops hu heq
    rcases hcl : _clone_repository cache_dir dirs git url cfg.package_name with e | pr
    · simp [setup_server, hu, hcl] at heq
    · obtain ⟨p, dirs2, b⟩ := pr
      obtain ⟨hp, _⟩ := clone_ok_inv cache_dir dirs git url cfg.package_name p dirs2 b hcl
      subst hp
      rcases hss : cfg.setup_script with _ | s
      · simp only [setup_server, hu, hcl, setCwd, hss] at heq
        obtain ⟨hr, hops⟩ := Prod.mk.injEq .. ▸ heq
        simp only [Except.ok.injEq] at hr
        subst hr
        subst hops
        exact ⟨rfl, by simp, by simp⟩
      · cases ex with
        | exitZero =>
            simp only [setup_server, hu, hcl, setCwd, hss, _run_setup_script] at heq
            obtain ⟨hr, hops⟩ := Prod.mk.injEq .. ▸ heq
            simp only [Except.ok.injEq] at hr
            subst hr
            subst hops
            exact ⟨rfl, by simp, by simp⟩
        | exitNonZero code err =>
            simp [setup_server, hu, hcl, setCwd, hss, _run_setup_script] at heq
        | raised m =>
            simp [setup_server, hu, hcl, setCwd, hss, _run_setup_script] at heq
  · intro s r ops hs heq
    rcases hu : cfg.repo_url with _ | url
    · cases ex with
      | exitZero =>
          simp only [setup_server, hu, hs, _run_setup_script] at heq
          obtain ⟨hr, hops⟩ := Prod.mk.injEq .. ▸ heq
          simp only [Except.ok.injEq] at hr
          subst hr
          subst hops
          simp
      | exitNonZero code err =>
          simp [setup_server, hu, hs, _run_setup_script] at heq
      | raised m =>
          simp [setup_server, hu, hs, _run_setup_script] at heq
    · rcases hcl : _clone_repository cache_dir dirs git url cfg.package_name with e | pr
      · simp [setup_server, hu, hcl] at heq
      · obtain ⟨p, dirs2, b⟩ := pr
        cases ex with
        | exitZero =>
            simp only [setup_server, hu, hcl, setCwd, hs, _run_setup_script] at heq
            obtain ⟨hr, hops⟩ := Prod.mk.injEq .. ▸ heq
            simp only [Except.ok.injEq] at hr
            subst hr
            subst hops
            simp [setCwd]
        | exitNonZero code err =>
            simp [setup_server, hu, hcl, setCwd, hs, _run_setup_script] at heq
        | raised m =>
            simp [setup_server, hu, hcl, setCwd, hs, _run_setup_script] at heq

/-- C8 witness: the test scenario, a record with both repo_url and
setup_script, a fresh cache and a successful clone and script run. -/
theorem setup_server_lifecycle_witness :
    ∃ r ops,
      setup_server [] "/cache" CloneOutcome.success ExecOutcome.exitZero
          demoSetupConfig = (Except.ok r, ops) ∧
      r.cwd = some (cloneTarget "/cache" "test-mcp-server") ∧
      SetupOp.cloneRepo "https://github.com/test/repo.git" "test-mcp-server" ∈ ops ∧
      SetupOp.updateServerPath (cloneTarget "/cache" "test-mcp-server") ∈ ops ∧
      SetupOp.runScript r.cwd "npm install" ∈ ops := by
  have h := setup_server_lifecycle [] "/cache" CloneOutcome.success
    ExecOutcome.exitZero demoSetupConfig
  have hres : setup_server [] "/cache" CloneOutcome.success ExecOutcome.exitZero
      demoSetupConfig =
      (Except.ok (setCwd demoSetupConfig (some "/cache/test-mcp-server")),
       [SetupOp.cloneRepo "https://github.com/test/repo.git" "test-mcp-server",
        SetupOp.updateServerPath "/cache/test-mcp-server",
        SetupOp.runScript (some "/cache/test-mcp-server") "npm install"]) := by
    rfl
  have ha := h.2.1 "https://github.com/test/repo.git" _ _ rfl hres
  have hb := h.2.2 "npm install" _ _ rfl hres
  exact ⟨_, _, hres, ha.1, ha.2.1, ha.2.2, hb⟩

/-- C9: environment-variable template resolution.  On a configuration with
an env section, `process_env_vars` rebuilds the section entry by entry,
keeping every key: a value of the exact form `${NAME}` becomes the
supplied value for NAME when one is given and stays verbatim otherwise,
and every non-template value (any string not of that form, and any
non-string) is left unchanged. -/
theorem process_env_vars_template_resolution
    (rest : List (String × String)) (env : List (String × EnvVal))
    (env_values : List (String × String)) :
    process_env_vars (ServerConfigDict.mk (some env) rest) env_values =
      ServerConfigDict.mk (some (env.map (process_env_entry env_values))) rest ∧
    (∀ k n, process_env_entry env_values (k, EnvVal.str (tpl_open ++ n ++ tpl_close)) =
        (k, EnvVal.str ((lookupKey env_values n).getD (tpl_open ++ n ++ tpl_close)))) ∧
    (∀ k v, (∀ n, v ≠ tpl_open ++ n ++ tpl_close) →
        process_env_entry env_values (k, EnvVal.str v) = (k, EnvVal.str v)) ∧
    (∀ k x, process_env_entry env_values (k, EnvVal.nonStr x) = (k, EnvVal.nonStr x)) := by
  refine ⟨rfl, ?_, ?_, fun k x => rfl⟩
  · intro k n
    have htpl : isEnvTemplate (tpl_open ++ n ++ tpl_close) = true :=
      (isEnvTemplate_iff _).mpr ⟨n, rfl⟩
    rw [process_env_entry]
    simp only [htpl, if_true, extractEnvVar_tpl]
    cases lookupKey env_values n <;> simp
  · intro k v hv
    have htpl : isEnvTemplate v = false := by
      rw [Bool.eq_false_iff]
      intro hc
      obtain ⟨n, rfl⟩ := (isEnvTemplate_iff v).mp hc
      exact hv n rfl
    rw [process_env_entry]
    simp [htpl]

/-- C9 witness: a concrete env section with a resolvable template, an
unresolvable template, a plain string and a non-string value. -/
theorem process_env_vars_template_resolution_witness :
    process_env_vars
        (ServerConfigDict.mk
          (some [("TOKEN", EnvVal.str "$\x7bGITHUB_TOKEN\x7d"),
                 ("MISSING", EnvVal.str "$\x7bABSENT\x7d"),
                 ("PLAIN", EnvVal.str "value"),
                 ("NUM", EnvVal.nonStr 3)]) [])
        [("GITHUB_TOKEN", "secret")] =
      ServerConfigDict.mk
        (some [("TOKEN", EnvVal.str "secret"),
               ("MISSING", EnvVal.str "$\x7bABSENT\x7d"),
               ("PLAIN", EnvVal.str "value"),
               ("NUM", EnvVal.nonStr 3)]) [] ∧
    process_env_entry [("GITHUB_TOKEN", "secret")] ("PLAIN", EnvVal.str "value") =
      ("PLAIN", EnvVal.str "value") := by
  have h := process_env_vars_template_resolution []
    [("TOKEN", EnvVal.str "$\x7bGITHUB_TOKEN\x7d"),
     ("MISSING", EnvVal.str "$\x7bABSENT\x7d"),
     ("PLAIN", EnvVal.str "value"),
     ("NUM", EnvVal.nonStr 3)]
    [("GITHUB_TOKEN", "secret")]
  obtain ⟨h1, _, h3, _⟩ := h
  have hplain := h3 "PLAIN" "value" (by
    intro n hn
    have hd := congrArg String.data hn
    rw [String.data_append, String.data_append] at hd
    rw [show tpl_open.data = ['$', '\x7b'] from rfl,
        show tpl_close.data = ['\x7d'] from rfl] at hd
    simp at hd)
  refine ⟨?_, hplain⟩
  rw [h1]
  rfl

/-- C10: `add_server_config` on a name absent from the preconfigured
catalog returns `(False, None)` and writes nothing, whatever the
interactive and save flags and whatever the local config, environment and
prompt results are. -/
theorem add_server_config_unknown_preconfigured
    (preconfigured local_config : CliConfig)
    (environ prompted : List (String × String)) (name : String)
    (interactive save_to_config : Bool)
    (h : lookupKey preconfigured.mcpServers name = none) :
    add_server_config preconfigured local_config environ prompted name
        interactive save_to_config = ((false, none), none) := by
  rw [add_server_config, h]

/-- C10 witness: an empty preconfigured catalog at concrete flags. -/
theorem add_server_config_unknown_preconfigured_witness :
    add_server_config (CliConfig.mk []) (CliConfig.mk []) [] []
        "mcp-server-reddit" true true = ((false, none), none) :=
  add_server_config_unknown_preconfigured (CliConfig.mk []) (CliConfig.mk [])
    [] [] "mcp-server-reddit" true true rfl

end MCPHub
